import Mathlib

/-!
Verification of the OpenSlides projector service gateway
(`pkg/http/http.go` and `cmd/projectord/main.go`) via a shallow
embedding: the per-request control flow of `authMiddleware`, the startup
logic of `main`/`run`, and the pure helper `encodePostgresConfig`.

External effects (the authentication collaborator, the outbound HTTP
transport, the restriction-service response) are supplied as an explicit
per-request environment; the middleware itself is translated branch by
branch from the Go source. Response bodies are modelled as the JSON
document handed to `writeResponse` (which emits it followed by a line
terminator); HTTP statuses are modelled as `Nat`, with `none` standing
for "no explicit WriteHeader call", which Go's `net/http` serves as 200.
-/

set_option autoImplicit false

namespace Projector

/-- Result of `io.ReadAll(resp.Body)` together with `resp.StatusCode`:
`bodyRead = none` models a body-read failure. -/
structure RestrictionResponse where
  status : Nat
  bodyRead : Option String
  deriving DecidableEq, Repr

/-- The per-request environment of `authMiddleware`: the outcome of
`auth.Authenticate` (`none` = error, `some uid` = authenticated context
carrying caller id `uid`), the raw `{id}` path value, whether
`http.NewRequest` fails, and the outcome of `client.Do`
(`none` = transport error). -/
structure ReqEnv where
  authCtx : Option Int
  pathId : String
  newRequestFails : Bool
  doResult : Option RestrictionResponse
  deriving DecidableEq, Repr

/-- The outbound restriction-service request built by the middleware. -/
structure OutboundReq where
  method : String
  url : String
  contentType : String
  body : String
  deriving DecidableEq, Repr

/-- What the middleware does with the request: reject with a response
(`status = none` models the absence of a `WriteHeader` call, which the
Go HTTP server serves as 200), or accept and invoke the wrapped handler
exactly once with the authenticated context (caller id). -/
inductive Outcome where
  | reject (status : Option Nat) (body : String)
  | accept (ctx : Int)
  deriving DecidableEq, Repr

/-- The observable result of one middleware run: the outcome plus the
outbound restriction request, `none` when no network call was attempted. -/
structure MWResult where
  outcome : Outcome
  outbound : Option OutboundReq
  deriving DecidableEq, Repr

/-- The wrapped handler runs exactly when the middleware falls through to
`next.ServeHTTP`. -/
def handlerInvoked (r : MWResult) : Bool :=
  match r.outcome with
  | .accept _ => true
  | .reject _ _ => false

/-- Status actually sent on the wire: an explicit `WriteHeader` value, or
Go's implicit default 200 when the body is written without one. -/
def effectiveStatus (o : Outcome) : Nat :=
  match o with
  | .reject (some s) _ => s
  | .reject none _ => 200
  | .accept _ => 200

/-- Digit accumulator of `strconv.Atoi`: fails on any non-digit. -/
def parseDigitsAux : Nat → List Char → Option Nat
  | acc, [] => some acc
  | acc, c :: rest =>
    if c.isDigit then parseDigitsAux (acc * 10 + (c.toNat - 48)) rest
    else none

/-- Non-empty all-digit parse. -/
def parseDigits : List Char → Option Nat
  | [] => none
  | l => parseDigitsAux 0 l

/-- `strconv.Atoi`: optional sign followed by at least one decimal digit,
nothing else (the syntactic part; the 64-bit range error is not modelled,
no claim depends on it). -/
def goAtoi (s : String) : Option Int :=
  match s.data with
  | [] => none
  | c :: rest =>
    if c = '+' then (parseDigits rest).map (fun n => (n : Int))
    else if c = '-' then (parseDigits rest).map (fun n => -(n : Int))
    else (parseDigits (c :: rest)).map (fun n => (n : Int))

/-- Substring test on character lists, as in `strings.Contains`. -/
def containsSub : List Char → List Char → Bool
  | [], sub => sub.isEmpty
  | c :: t, sub => sub.isPrefixOf (c :: t) || containsSub t sub

/-- `strings.Contains s sub`. -/
def strContains (s sub : String) : Bool :=
  containsSub s.data sub.data

/-- The success marker `"projector/<id>/id":<id>` the middleware greps the
restriction response body for (http.go line 147). -/
def markerFor (id : Int) : String :=
  "\"projector/" ++ toString id ++ "/id\":" ++ toString id

/-- The outbound request body (http.go line 119), byte for byte:
`[{"collection": "projector", "ids":[<id>], "fields": {"id": null}}]`. -/
def restrictionBody (id : Int) : String :=
  "[\x7b\"collection\": \"projector\", \"ids\":[" ++ toString id ++
    "], \"fields\": \x7b\"id\": null\x7d\x7d]"

def msgAuthFailed : String :=
  "\x7b\"error\": true, \"msg\": \"authenticate request failed\"\x7d"

def msgIdInvalid : String :=
  "\x7b\"error\": true, \"msg\": \"Projector id invalid\"\x7d"

def msgCreatingFailed : String :=
  "\x7b\"error\": true, \"msg\": \"creating restriction request failed\"\x7d"

def msgRestrictionFailed : String :=
  "\x7b\"error\": true, \"msg\": \"restriction request failed\"\x7d"

def msgPermDenied : String :=
  "\x7b\"error\": true, \"msg\": \"permissions denied\"\x7d"

/-- The restriction request as assembled at http.go lines 119-130. -/
def outboundReqFor (restricterUrl : String) (userID id : Int) : OutboundReq :=
  { method := "POST"
    url := restricterUrl ++ "?user_id=" ++ toString userID ++ "&single=1"
    contentType := "application/json"
    body := restrictionBody id }

/-- `authMiddleware` (http.go lines 102-159), branch by branch:
authenticate, parse the id, build and send the restriction request,
check status and body marker, and only then fall through to the wrapped
handler with the authenticated context. -/
def authMiddleware (restricterUrl : String) (env : ReqEnv) : MWResult :=
  match env.authCtx with
  | none => ⟨.reject (some 401) msgAuthFailed, none⟩
  | some userID =>
    match goAtoi env.pathId with
    | none => ⟨.reject (some 400) msgIdInvalid, none⟩
    | some id =>
      if env.newRequestFails then
        ⟨.reject none msgCreatingFailed, none⟩
      else
        let req := outboundReqFor restricterUrl userID id
        match env.doResult with
        | none => ⟨.reject (some 500) msgRestrictionFailed, some req⟩
        | some resp =>
          if resp.status ≠ 200 then
            ⟨.reject (some resp.status) msgRestrictionFailed, some req⟩
          else
            match resp.bodyRead with
            | none => ⟨.reject (some 401) msgPermDenied, some req⟩
            | some b =>
              if strContains b (markerFor id) then
                ⟨.accept userID, some req⟩
              else
                ⟨.reject (some 401) msgPermDenied, some req⟩

/-- A keyed state source, reduced to the one capability the startup
claims need: point lookup by key. -/
def Flow : Type := String → Option Int

/-- Modelled from the spec: `flow.Combine` of the openslides-go library
(an external collaborator, not under src/) merges a primary Flow with a
mapping of path keys to override Flows; an operation on a key under a
registered override path goes to that override Flow, every other key to
the primary. -/
def combineFlow (primary : Flow) (overrides : List (String × Flow)) : Flow :=
  fun key =>
    match overrides.find? (fun p => p.1.isPrefixOf key) with
    | some p => p.2 key
    | none => primary key

/-- What `run` (main.go lines 65-80) sets up before the server starts:
`vote := datastore.NewFlowVoteCount(env)` runs unconditionally (line 65);
only when the public-access-only flag is off is the combined Flow built
and the refresher goroutine `go vote.Connect(...)` started (lines 68-80),
otherwise `dataFlow` stays the primary `dsFlow`. -/
structure RunSetup where
  voteConstructed : Bool
  refresherStarted : Bool
  dataFlow : Flow

/-- The Flow-selection logic of `run`, translated from main.go 65-80. -/
def runSetup (publicAccessOnly : Bool) (dsFlow voteFlow : Flow) : RunSetup :=
  if publicAccessOnly then
    ⟨true, false, dsFlow⟩
  else
    ⟨true, true, combineFlow dsFlow [("poll/live_votes", voteFlow)]⟩

/-- Failure switches of the startup path: `env.Parse` (main.go 39),
`datastore.NewFlowPostgres` (main.go 60) and `getDatabase` (main.go 82). -/
structure MainEnv where
  configParseFails : Bool
  datastoreFails : Bool
  databaseFails : Bool
  deriving DecidableEq, Repr

/-- How startup ends: a fatal exit (`log.Fatal` after `run` returns an
error) at the named stage, or `ListenAndServe` reached. -/
inductive StartOutcome where
  | fatalExit (stage : String)
  | serverStarted
  deriving DecidableEq, Repr

/-- `main` plus `run` (main.go 37-106): an `env.Parse` error is only
logged (lines 41-43, no return, no `log.Fatal`); `run` aborts fatally on
a datastore or database connection error; otherwise the server starts. -/
def mainModel (e : MainEnv) : StartOutcome :=
  if e.datastoreFails then .fatalExit "connecting to datastore"
  else if e.databaseFails then .fatalExit "connecting to database"
  else .serverStarted

/-- `log.Err(err).Msg("parsing config")` fires exactly when `env.Parse`
failed (main.go 41-43). -/
def parseErrorLogged (e : MainEnv) : Bool :=
  e.configParseFails

/-- Modelled from the spec: the periodic refresh loop (`vote.Connect` of
openslides-go, an external collaborator not under src/) invokes its
refresh operation on every tick; a failed tick is handed to the error
callback and the loop continues to the next tick. Each element of
`tickResults` is one tick's outcome (`none` = success, `some e` =
failure); the result is the number of refresh invocations paired with
the log lines the error callback produced. -/
def refresherLoop (tickResults : List (Option String)) (onError : String → List String) :
    Nat × List String :=
  match tickResults with
  | [] => (0, [])
  | r :: rest =>
    let next := refresherLoop rest onError
    match r with
    | none => (next.1 + 1, next.2)
    | some e => (next.1 + 1, onError e ++ next.2)

/-- The error callback `run` installs for the refresher:
`func(err error) {}` (main.go line 79) — it discards the error and emits
no log line. -/
def mainOnError : String → List String :=
  fun _ => []

/-- One character so that the scanner never sees a quote literal. -/
def bsChar : Char := Char.ofNat 92

/-- The single-quote character. -/
def sqChar : Char := Char.ofNat 39

/-- `strings.ReplaceAll` for a single-character pattern (the only shape
`encodePostgresConfig` uses): each occurrence of `old` becomes `new`. -/
def replaceAllChar (old : Char) (new : List Char) : List Char → List Char
  | [] => []
  | c :: rest => (if c = old then new else [c]) ++ replaceAllChar old new rest

/-- `encodePostgresConfig` (main.go 139-143): first every backslash
becomes two backslashes, then every single quote becomes
backslash-quote. -/
def encodePostgresConfig (s : List Char) : List Char :=
  replaceAllChar sqChar [bsChar, sqChar] (replaceAllChar bsChar [bsChar, bsChar] s)

/-- Helper of `noUnescapedQuote`: scans with the previous character in
hand; a quote is acceptable only right after a backslash. -/
def nuqAux (prev : Char) : List Char → Bool
  | [] => true
  | c :: rest => (!(c == sqChar) || prev == bsChar) && nuqAux c rest

/-- No single quote occurs that is not immediately preceded by a
backslash (in particular none at the start). -/
def noUnescapedQuote : List Char → Bool
  | [] => true
  | c :: rest => !(c == sqChar) && nuqAux c rest

/-! ## Claim theorems -/

/-- C1: for a request that passes authentication and id parsing and whose
restriction-service response has status 200, the wrapped handler is
invoked (exactly once, with the authenticated context `uid`) precisely
when the body was read and contains the marker `"projector/<id>/id":<id>`;
if the marker is absent or the body read fails, the response is 401 with
the permissions-denied body and the handler is not invoked. -/
theorem c1_handler_iff_marker (cfg : String) (env : ReqEnv) (uid id : Int)
    (resp : RestrictionResponse)
    (hauth : env.authCtx = some uid)
    (hid : goAtoi env.pathId = some id)
    (hreq : env.newRequestFails = false)
    (hdo : env.doResult = some resp)
    (hst : resp.status = 200) :
    (authMiddleware cfg env).outcome =
      match resp.bodyRead with
      | some b =>
        if strContains b (markerFor id) then Outcome.accept uid
        else Outcome.reject (some 401) msgPermDenied
      | none => Outcome.reject (some 401) msgPermDenied := by
  obtain ⟨a, p, nr, dr⟩ := env
  obtain ⟨st, bR⟩ := resp
  dsimp only at hauth hid hreq hdo hst
  subst hauth
  subst hreq
  subst hdo
  subst hst
  unfold authMiddleware
  rw [hid]
  cases bR with
  | none => rfl
  | some b =>
    by_cases hc : strContains b (markerFor id) = true
    · simp [hc]
    · simp [hc]

/-- C1 witness: a concrete authenticated request for id 7 whose 200
response body is exactly the marker leads to the handler being invoked
with caller id 1. -/
theorem c1_witness :
    (authMiddleware "u" ⟨some 1, "7", false, some ⟨200, some (markerFor 7)⟩⟩).outcome =
      Outcome.accept 1 :=
  c1_handler_iff_marker "u" ⟨some 1, "7", false, some ⟨200, some (markerFor 7)⟩⟩
    1 7 ⟨200, some (markerFor 7)⟩ rfl rfl rfl rfl rfl

/-- C2: a request on which authentication fails is answered 401 with the
authenticate-request-failed body, no restriction-service call is made
(`outbound = none`) and the wrapped handler is not invoked (the outcome
is a rejection). -/
theorem c2_auth_failure (cfg : String) (env : ReqEnv)
    (h : env.authCtx = none) :
    authMiddleware cfg env = ⟨.reject (some 401) msgAuthFailed, none⟩ ∧
      handlerInvoked (authMiddleware cfg env) = false := by
  have h1 : authMiddleware cfg env = ⟨.reject (some 401) msgAuthFailed, none⟩ := by
    unfold authMiddleware
    rw [h]
  exact ⟨h1, by rw [h1]; rfl⟩

/-- C2 witness: a concrete unauthenticated request. -/
theorem c2_witness :
    authMiddleware "u" ⟨none, "7", false, none⟩ =
        ⟨.reject (some 401) msgAuthFailed, none⟩ ∧
      handlerInvoked (authMiddleware "u" ⟨none, "7", false, none⟩) = false :=
  c2_auth_failure "u" ⟨none, "7", false, none⟩ rfl

/-- C5: a restriction-service response with a status other than 200 is
propagated: the caller receives that same status with the generic
restriction-request-failed body, and the wrapped handler is not
invoked. -/
theorem c5_non200_propagated (cfg : String) (env : ReqEnv) (uid id : Int)
    (resp : RestrictionResponse)
    (hauth : env.authCtx = some uid)
    (hid : goAtoi env.pathId = some id)
    (hreq : env.newRequestFails = false)
    (hdo : env.doResult = some resp)
    (hst : resp.status ≠ 200) :
    (authMiddleware cfg env).outcome =
        .reject (some resp.status) msgRestrictionFailed ∧
      handlerInvoked (authMiddleware cfg env) = false := by
  obtain ⟨a, p, nr, dr⟩ := env
  obtain ⟨st, bR⟩ := resp
  dsimp only at hauth hid hreq hdo hst
  subst hauth
  subst hreq
  subst hdo
  have h1 : (authMiddleware cfg ⟨some uid, p, false, some ⟨st, bR⟩⟩).outcome =
      .reject (some st) msgRestrictionFailed := by
    unfold authMiddleware
    rw [hid]
    simp [hst]
  exact ⟨h1, by unfold handlerInvoked; rw [h1]⟩

/-- C5 witness: a concrete 403 from the restriction service is served to
the caller as 403. -/
theorem c5_witness :
    (authMiddleware "u" ⟨some 1, "7", false, some ⟨403, some ""⟩⟩).outcome =
        .reject (some (403 : Nat)) msgRestrictionFailed ∧
      handlerInvoked (authMiddleware "u" ⟨some 1, "7", false, some ⟨403, some ""⟩⟩) = false :=
  c5_non200_propagated "u" ⟨some 1, "7", false, some ⟨403, some ""⟩⟩ 1 7 ⟨403, some ""⟩
    rfl rfl rfl rfl (by decide)

/-- C6 counterexample: the claim quantifies over every request with a
non-integer id, but a request that also fails authentication is answered
401 with the authentication error body, not 400 — id validation only
runs after authentication succeeds (http.go lines 104-116). -/
theorem c6_counterexample :
    goAtoi "abc" = none ∧
      authMiddleware "u" ⟨none, "abc", false, none⟩ =
        ⟨.reject (some 401) msgAuthFailed, none⟩ :=
  ⟨rfl, rfl⟩

/-- C6 as amended: every request that passes authentication and whose
id path segment is not an integer is answered 400 with the
projector-id-invalid body before any network call (`outbound = none`)
and without invoking the wrapped handler. -/
theorem c6_bad_id_rejected (cfg : String) (env : ReqEnv) (uid : Int)
    (hauth : env.authCtx = some uid)
    (hid : goAtoi env.pathId = none) :
    authMiddleware cfg env = ⟨.reject (some 400) msgIdInvalid, none⟩ ∧
      handlerInvoked (authMiddleware cfg env) = false := by
  have h1 : authMiddleware cfg env = ⟨.reject (some 400) msgIdInvalid, none⟩ := by
    unfold authMiddleware
    rw [hauth, hid]
  exact ⟨h1, by rw [h1]; rfl⟩

/-- C6 witness: an authenticated request with path id "abc". -/
theorem c6_witness :
    authMiddleware "u" ⟨some 1, "abc", false, none⟩ =
        ⟨.reject (some 400) msgIdInvalid, none⟩ ∧
      handlerInvoked (authMiddleware "u" ⟨some 1, "abc", false, none⟩) = false :=
  c6_bad_id_rejected "u" ⟨some 1, "abc", false, none⟩ 1 rfl rfl

/-- C3 counterexample: when constructing the outbound request fails, the
code writes the error body without calling `WriteHeader` (http.go lines
122-126), so the response goes out with Go's implicit default status
200, not a 500/502-equivalent. -/
theorem c3_counterexample :
    (authMiddleware "u" ⟨some 1, "7", true, none⟩).outcome =
        .reject none msgCreatingFailed ∧
      effectiveStatus (authMiddleware "u" ⟨some 1, "7", true, none⟩).outcome = 200 ∧
      ¬ 500 ≤ effectiveStatus (authMiddleware "u" ⟨some 1, "7", true, none⟩).outcome :=
  ⟨rfl, rfl, by decide⟩

/-- C3 as amended: if constructing the outbound request fails, the gateway
writes the creating-restriction-request-failed body with no explicit
status (served as 200) and makes no network call; if sending it fails,
the gateway responds 500 with the restriction-request-failed body; in
neither case is the wrapped handler invoked (both outcomes are
rejections). -/
theorem c3_outbound_failure (cfg : String) (env : ReqEnv) (uid id : Int)
    (hauth : env.authCtx = some uid)
    (hid : goAtoi env.pathId = some id) :
    (env.newRequestFails = true →
      authMiddleware cfg env = ⟨.reject none msgCreatingFailed, none⟩ ∧
        handlerInvoked (authMiddleware cfg env) = false) ∧
    (env.newRequestFails = false → env.doResult = none →
      authMiddleware cfg env =
          ⟨.reject (some 500) msgRestrictionFailed, some (outboundReqFor cfg uid id)⟩ ∧
        handlerInvoked (authMiddleware cfg env) = false) := by
  obtain ⟨a, p, nr, dr⟩ := env
  dsimp only at hauth hid ⊢
  subst hauth
  constructor
  · intro hnr
    subst hnr
    have h1 : authMiddleware cfg ⟨some uid, p, true, dr⟩ =
        ⟨.reject none msgCreatingFailed, none⟩ := by
      unfold authMiddleware
      rw [hid]
      rfl
    exact ⟨h1, by unfold handlerInvoked; rw [h1]⟩
  · intro hnr hdr
    subst hnr
    subst hdr
    have h1 : authMiddleware cfg ⟨some uid, p, false, none⟩ =
        ⟨.reject (some 500) msgRestrictionFailed, some (outboundReqFor cfg uid id)⟩ := by
      unfold authMiddleware
      rw [hid]
      rfl
    exact ⟨h1, by unfold handlerInvoked; rw [h1]⟩

/-- C3 witness: a concrete request-construction failure leads to the
written error body with no explicit status. -/
theorem c3_witness :
    authMiddleware "v" ⟨some 2, "9", true, none⟩ =
        ⟨.reject none msgCreatingFailed, none⟩ ∧
      handlerInvoked (authMiddleware "v" ⟨some 2, "9", true, none⟩) = false :=
  (c3_outbound_failure "v" ⟨some 2, "9", true, none⟩ 2 9 rfl rfl).1 rfl

/-- C7 counterexample: the body actually sent (http.go line 119) contains
spaces after the JSON colons and commas
(`[{"collection": "projector", "ids":[1], "fields": {"id": null}}]`), so
it is not byte-for-byte equal to the claim's
`[{"collection":"projector","ids":[1],"fields":{"id":null}}]`. -/
theorem c7_counterexample :
    (authMiddleware "u" ⟨some 1, "1", false, some ⟨200, some (markerFor 1)⟩⟩).outbound =
        some (outboundReqFor "u" 1 1) ∧
      (outboundReqFor "u" 1 1).body ≠
        "[\x7b\"collection\":\"projector\",\"ids\":[1],\"fields\":\x7b\"id\":null\x7d\x7d]" :=
  ⟨rfl, by decide⟩

/-- C7 as amended: for every authenticated request with valid integer id
on which the outbound request is constructed, the restriction call is an
HTTP POST to `<restricterUrl>?user_id=<callerId>&single=1` with
Content-Type `application/json` and body
`[{"collection": "projector", "ids":[<id>], "fields": {"id": null}}]`
(the source's spacing, JSON-equivalent to the claim's). -/
theorem c7_outbound_shape (cfg : String) (env : ReqEnv) (uid id : Int)
    (hauth : env.authCtx = some uid)
    (hid : goAtoi env.pathId = some id)
    (hreq : env.newRequestFails = false) :
    (authMiddleware cfg env).outbound = some
      { method := "POST"
        url := cfg ++ "?user_id=" ++ toString uid ++ "&single=1"
        contentType := "application/json"
        body := "[\x7b\"collection\": \"projector\", \"ids\":[" ++ toString id ++
          "], \"fields\": \x7b\"id\": null\x7d\x7d]" } := by
  obtain ⟨a, p, nr, dr⟩ := env
  dsimp only at hauth hid hreq
  subst hauth
  subst hreq
  unfold authMiddleware
  rw [hid]
  cases dr with
  | none => rfl
  | some resp =>
    obtain ⟨st, bR⟩ := resp
    by_cases hst : st = 200
    · subst hst
      cases bR with
      | none => simp [outboundReqFor, restrictionBody]
      | some b =>
        by_cases hc : strContains b (markerFor id) = true
        · simp [hc, outboundReqFor, restrictionBody]
        · simp [hc, outboundReqFor, restrictionBody]
    · simp [hst, outboundReqFor, restrictionBody]

/-- C7 witness: the concrete outbound request for caller 1 and id 7. -/
theorem c7_witness :
    (authMiddleware "u" ⟨some 1, "7", false, some ⟨200, some (markerFor 7)⟩⟩).outbound = some
      { method := "POST"
        url := "u" ++ "?user_id=" ++ toString (1 : Int) ++ "&single=1"
        contentType := "application/json"
        body := "[\x7b\"collection\": \"projector\", \"ids\":[" ++ toString (7 : Int) ++
          "], \"fields\": \x7b\"id\": null\x7d\x7d]" } :=
  c7_outbound_shape "u" ⟨some 1, "7", false, some ⟨200, some (markerFor 7)⟩⟩ 1 7 rfl rfl rfl

/-- C4 counterexample: `vote := datastore.NewFlowVoteCount(env)` runs
unconditionally at main.go line 65, before the public-access-only check,
so even with the flag enabled the override (live-vote) Flow object is
constructed — only its registration and refresh are skipped. -/
theorem c4_counterexample :
    (runSetup true (fun _ => none) (fun _ => none)).voteConstructed = true :=
  rfl

/-- C4 as amended: with the public-access-only flag enabled, the
live-vote Flow object is still constructed, but it is never combined
into the served Flow, no periodic refresher task is started, and the
Flow served to the gateway is identical to the primary persisted-state
Flow on every key. -/
theorem c4_public_access_only (ds v : Flow) :
    (runSetup true ds v).voteConstructed = true ∧
      (runSetup true ds v).refresherStarted = false ∧
      ∀ k, (runSetup true ds v).dataFlow k = ds k :=
  ⟨rfl, rfl, fun _ => rfl⟩

/-- C8 counterexample: one failed refresh tick produces no log line at
all, because the error callback installed at main.go line 79 is the
no-op `func(err error) {}` — the failure is discarded, not logged. -/
theorem c8_counterexample :
    refresherLoop [some "refresh failed"] mainOnError = (1, []) :=
  rfl

/-- C8 as amended: every failed tick is handed to the configured error
callback, which is a no-op that emits no log output and discards the
failure; the loop nevertheless continues — the refresh operation runs
once per tick no matter how many ticks fail. -/
theorem c8_failures_discarded_loop_continues (tickResults : List (Option String)) :
    (refresherLoop tickResults mainOnError).1 = tickResults.length ∧
      (refresherLoop tickResults mainOnError).2 = [] := by
  induction tickResults with
  | nil => exact ⟨rfl, rfl⟩
  | cons r rest ih =>
    cases r with
    | none =>
      exact ⟨by simp [refresherLoop, ih.1], by simp [refresherLoop, ih.2]⟩
    | some e =>
      exact ⟨by simp [refresherLoop, ih.1], by simp [refresherLoop, mainOnError, ih.2]⟩

/-- C9 counterexample: with a failing `env.Parse` and healthy
connections, startup reaches `ListenAndServe` — the parse error is only
logged (main.go lines 41-43), the process does not exit. -/
theorem c9_counterexample :
    mainModel ⟨true, false, false⟩ = StartOutcome.serverStarted ∧
      parseErrorLogged ⟨true, false, false⟩ = true :=
  ⟨rfl, rfl⟩

/-- C9 as amended: a configuration-parse failure is logged but is not
fatal; whenever the datastore and database connections succeed, the
server is started regardless of whether config parsing failed. -/
theorem c9_parse_failure_not_fatal (e : MainEnv)
    (hds : e.datastoreFails = false)
    (hdb : e.databaseFails = false) :
    mainModel e = StartOutcome.serverStarted ∧
      parseErrorLogged e = e.configParseFails := by
  obtain ⟨cp, ds, db⟩ := e
  dsimp only at hds hdb
  subst hds
  subst hdb
  exact ⟨rfl, rfl⟩

/-- C9 witness: the concrete parse-failure startup. -/
theorem c9_witness :
    mainModel ⟨true, false, false⟩ = StartOutcome.serverStarted ∧
      parseErrorLogged ⟨true, false, false⟩ = (⟨true, false, false⟩ : MainEnv).configParseFails :=
  c9_parse_failure_not_fatal ⟨true, false, false⟩ rfl rfl

lemma bs_beq_sq : (bsChar == sqChar) = false := by decide

lemma sq_beq_sq : (sqChar == sqChar) = true := by decide

lemma bs_beq_bs : (bsChar == bsChar) = true := by decide

/-- After the quote-replacement pass, the scan accepts from any previous
character: every quote the pass emits sits right after the backslash it
emits with it. -/
lemma nuqAux_replace_sq (t : List Char) (prev : Char) :
    nuqAux prev (replaceAllChar sqChar [bsChar, sqChar] t) = true := by
  induction t generalizing prev with
  | nil => rfl
  | cons c rest ih =>
    by_cases h : c = sqChar
    · subst h
      simp [replaceAllChar, nuqAux, bs_beq_sq, sq_beq_sq, bs_beq_bs, ih]
    · simp [replaceAllChar, nuqAux, h, ih]

/-- C10: `encodePostgresConfig` is exactly backslash-doubling followed by
quote-escaping, and as a consequence its output never contains a single
quote that is not immediately preceded by a backslash — so a value
embedded between single quotes in the Postgres connection string cannot
terminate the quoted literal early. -/
theorem c10_encode_escapes_quotes (s : List Char) :
    encodePostgresConfig s =
        replaceAllChar sqChar [bsChar, sqChar] (replaceAllChar bsChar [bsChar, bsChar] s) ∧
      noUnescapedQuote (encodePostgresConfig s) = true := by
  refine ⟨rfl, ?_⟩
  unfold encodePostgresConfig
  generalize replaceAllChar bsChar [bsChar, bsChar] s = t
  cases t with
  | nil => rfl
  | cons c rest =>
    by_cases h : c = sqChar
    · subst h
      simp [replaceAllChar, noUnescapedQuote, nuqAux, bs_beq_sq, sq_beq_sq, bs_beq_bs,
        nuqAux_replace_sq]
    · simp [replaceAllChar, noUnescapedQuote, h, nuqAux_replace_sq]

end Projector
